import Mathlib

/-!
Verification of the configuration-assembly layer of the serverless image
handler stack, a shallow embedding of
`source/constructs/lib/constructs-stack.ts`.

The file under verification declares CloudFormation parameters (some only in
"China region" mode), groups them for the deployment console, instantiates the
`ServerlessImageHandler` child construct, and declares stack outputs, some of
which are guarded by deploy-time conditions owned by the child construct.

Modelling notes:
* A synthesis pass is modelled by explicit state passing over a `Stack` value
  holding the parameter registry, the `ParameterGroups` metadata list and the
  output registry, in declaration order.
* Human-readable `description` strings, the template-format version, the
  template description and the `Send` mapping are omitted from the model:
  they are inert documentation/metadata and no verified property mentions
  them.
* The CDK value tokens (`Fn.sub`, `Fn.conditionIf`, `Ref`,
  `parameter.valueAsString`) are modelled by the inductive `ValueExpr`.
* The child construct `ServerlessImageHandler` is defined in
  `serverless-image-handler.ts`, which is not part of this snapshot; it is
  modelled from the spec by the set of condition children it exposes.
-/

namespace SIHStack

/-- Properties of a CloudFormation parameter as passed to `new CfnParameter`:
type, default value, allowed-value set and validation pattern.  Free-text
`description` fields are omitted (documentation only, no logic). -/
structure CfnParameterProps where
  type : Option String := none
  default : Option String := none
  allowedValues : Option (List String) := none
  allowedPattern : Option String := none
deriving DecidableEq, Repr

/-- A declared CloudFormation parameter: its logical id and its properties. -/
structure CfnParameter where
  logicalId : String
  props : CfnParameterProps
deriving DecidableEq, Repr

/-- The CDK `Ref` token for a parameter (`parameter.valueAsString` and
`Fn.ref` both render as a `Ref` to the logical id). -/
inductive ValueExpr where
  | sub : String → ValueExpr
  | conditionIf : String → ValueExpr → ValueExpr → ValueExpr
  | ref : String → ValueExpr
deriving DecidableEq, Repr

/-- `parameter.valueAsString` is a `Ref` token to the parameter. -/
def CfnParameter.valueAsString (p : CfnParameter) : ValueExpr :=
  ValueExpr.ref p.logicalId

/-- Properties of a CloudFormation output: its value expression and the name
of the (child-owned) condition that guards it, when present. -/
structure CfnOutputProps where
  value : ValueExpr
  condition : Option String := none
deriving DecidableEq, Repr

/-- A declared CloudFormation output. -/
structure CfnOutput where
  logicalId : String
  props : CfnOutputProps
deriving DecidableEq, Repr

/-- One entry of the `ParameterGroups` metadata: the `Label` object (modelled
by its label string) and the `Parameters` list of logical ids. -/
structure ParamGroup where
  Label : String
  Parameters : List String
deriving DecidableEq, Repr

/-- The synthesis-time state of one pass: the parameter registry, the
`ParameterGroups` console metadata and the output registry, each in
declaration order. -/
structure Stack where
  parameters : List CfnParameter := []
  parameterGroups : List ParamGroup := []
  outputs : List CfnOutput := []
deriving DecidableEq, Repr

/-- `paramGroup(label, params)` of the source: maps each handle to its
logical id when present and to the empty string when absent, then filters out
falsy (empty) ids. -/
def paramGroup (label : String) (params : List (Option CfnParameter)) : ParamGroup :=
  { Label := label
    Parameters := (params.map fun p =>
        match p with
        | some q => q.logicalId
        | none => "").filter fun id => id ≠ "" }

/-- `paramGroupIf(expression, label, params)` of the source: the group when
the expression holds, `undefined` otherwise. -/
def paramGroupIf (expression : Bool) (label : String) (params : List (Option CfnParameter)) :
    Option ParamGroup :=
  if expression then some (paramGroup label params) else none

/-- Modelled from the spec: the `ServerlessImageHandler` child construct
(`serverless-image-handler.ts` is not part of this repository snapshot).
Per the spec it exposes, by name, zero or more named condition children among
`ApiCertificateCondition`, `DemoUICertificateCondition`,
`DeployDemoUICondition` and `EnableCorsCondition`; the model records the set
of condition names it defines. -/
structure ServerlessImageHandler where
  conditions : List String
deriving DecidableEq, Repr

/-- CDK `node.tryFindChild`: the child when a child with this id exists,
`undefined` otherwise. -/
def ServerlessImageHandler.tryFindChild (c : ServerlessImageHandler) (id : String) :
    Option String :=
  if c.conditions.contains id then some id else none

/-- CDK `node.findChild`: like `tryFindChild` but throws when no child with
this id exists, aborting the synthesis pass. -/
def ServerlessImageHandler.findChild (c : ServerlessImageHandler) (id : String) :
    Except String String :=
  match c.tryFindChild id with
  | some x => Except.ok x
  | none => Except.error ("No child with id: " ++ id)

/-- `cfnParam(id, props)`: registers a new parameter on the stack and returns
its handle. -/
def cfnParam (st : Stack) (id : String) (props : CfnParameterProps) :
    CfnParameter × Stack :=
  let p : CfnParameter := { logicalId := id, props := props }
  (p, { st with parameters := st.parameters ++ [p] })

/-- `cfnParamIf(expression, id, props)`: registers the parameter and returns
its handle when the expression holds; returns `undefined` and registers
nothing otherwise. -/
def cfnParamIf (st : Stack) (expression : Bool) (id : String) (props : CfnParameterProps) :
    Option CfnParameter × Stack :=
  if expression then
    let (p, st') := cfnParam st id props
    (some p, st')
  else
    (none, st)

/-- `cfnOutput(id, props)`: registers a new output on the stack and returns
its handle. -/
def cfnOutput (st : Stack) (id : String) (props : CfnOutputProps) :
    CfnOutput × Stack :=
  let o : CfnOutput := { logicalId := id, props := props }
  (o, { st with outputs := st.outputs ++ [o] })

/-- `cfnOutputIf(expression, id, props)`: creates and registers the output
when the expression holds, but — as written in the source — falls through to
`return undefined` in every case, so the caller never receives the handle. -/
def cfnOutputIf (st : Stack) (expression : Bool) (id : String) (props : CfnOutputProps) :
    Option CfnOutput × Stack :=
  if expression then
    let (_, st') := cfnOutput st id props
    (none, st')
  else
    (none, st)

/-- `output.overrideLogicalId(newId)`: replaces the logical id of the
registered output that currently carries `oldId`. -/
def overrideLogicalId (st : Stack) (oldId newId : String) : Stack :=
  { st with outputs := st.outputs.map fun o =>
      if o.logicalId = oldId then { o with logicalId := newId } else o }

/-- The props bag forwarded to the `ServerlessImageHandler` child construct.
The region-only handles are optional; the child's internal use of them is out
of scope (its code is not in this snapshot). -/
structure ServerlessImageHandlerProps where
  apiDomain : Option CfnParameter
  apiCertificateIamId : Option CfnParameter
  deployDemoUiParameter : CfnParameter
  demoUIDomain : Option CfnParameter
  demoUICertificateIamId : Option CfnParameter
  corsEnabledParameter : CfnParameter
  corsOriginParameter : CfnParameter
  sourceBucketsParameter : CfnParameter
  logRetentionPeriodParameter : CfnParameter
  autoWebPParameter : CfnParameter
  enableSignatureParameter : CfnParameter
  secretsManagerParameter : CfnParameter
  secretsManagerKeyParameter : CfnParameter
  enableDefaultFallbackImageParameter : CfnParameter
  fallbackImageS3BucketParameter : CfnParameter
  fallbackImageS3KeyParameter : CfnParameter
deriving DecidableEq, Repr

/-- Props of the `ApiDomain` parameter (region mode only). -/
def apiDomainProps : CfnParameterProps :=
  { type := some "String"
    allowedPattern := some "^$|(([a-zA-Z0-9]|[a-zA-Z0-9][a-zA-Z0-9\\-]*[a-zA-Z0-9])\\.)*([A-Za-z0-9]|[A-Za-z0-9][A-Za-z0-9\\-]*[A-Za-z0-9])$" }

/-- Props of the `ApiCertificateIamId` parameter (region mode only). -/
def apiCertificateIamIdProps : CfnParameterProps :=
  { type := some "String", default := some "" }

/-- Props of the `DeployDemoUI` parameter. -/
def deployDemoUIProps : CfnParameterProps :=
  { type := some "String", default := some "Yes", allowedValues := some ["Yes", "No"] }

/-- Props of the `DemoUIDomain` parameter (region mode only). -/
def demoUIDomainProps : CfnParameterProps :=
  { type := some "String"
    allowedPattern := some "^$|(([a-zA-Z0-9]|[a-zA-Z0-9][a-zA-Z0-9\\-]*[a-zA-Z0-9])\\.)*([A-Za-z0-9]|[A-Za-z0-9][A-Za-z0-9\\-]*[A-Za-z0-9])$"
    default := some "" }

/-- Props of the `DemoUICertificateIamId` parameter (region mode only). -/
def demoUICertificateIamIdProps : CfnParameterProps :=
  { type := some "String", default := some "" }

/-- Props of the `CorsEnabled` parameter. -/
def corsEnabledProps : CfnParameterProps :=
  { type := some "String", default := some "No", allowedValues := some ["Yes", "No"] }

/-- Props of the `CorsOrigin` parameter. -/
def corsOriginProps : CfnParameterProps :=
  { type := some "String", default := some "*" }

/-- Props of the `SourceBuckets` parameter. -/
def sourceBucketsProps : CfnParameterProps :=
  { type := some "String"
    default := some "defaultBucket, bucketNo2, bucketNo3, ..."
    allowedPattern := some ".+" }

/-- Props of the `LogRetentionPeriod` parameter. -/
def logRetentionPeriodProps : CfnParameterProps :=
  { type := some "Number"
    default := some "1"
    allowedValues := some ["1", "3", "5", "7", "14", "30", "60", "90", "120", "150",
      "180", "365", "400", "545", "731", "1827", "3653"] }

/-- Props of the `AutoWebP` parameter. -/
def autoWebPProps : CfnParameterProps :=
  { type := some "String", default := some "No", allowedValues := some ["Yes", "No"] }

/-- Props of the `EnableSignature` parameter. -/
def enableSignatureProps : CfnParameterProps :=
  { type := some "String", default := some "No", allowedValues := some ["Yes", "No"] }

/-- Props of the `SecretsManagerSecret` parameter. -/
def secretsManagerProps : CfnParameterProps :=
  { type := some "String", default := some "" }

/-- Props of the `SecretsManagerKey` parameter. -/
def secretsManagerKeyProps : CfnParameterProps :=
  { type := some "String", default := some "" }

/-- Props of the `EnableDefaultFallbackImage` parameter. -/
def enableDefaultFallbackImageProps : CfnParameterProps :=
  { type := some "String", default := some "No", allowedValues := some ["Yes", "No"] }

/-- Props of the `FallbackImageS3Bucket` parameter. -/
def fallbackImageS3BucketProps : CfnParameterProps :=
  { type := some "String", default := some "" }

/-- Props of the `FallbackImageS3Key` parameter. -/
def fallbackImageS3KeyProps : CfnParameterProps :=
  { type := some "String", default := some "" }

/-- Label of the image-URL-signature parameter group. -/
def signatureGroupLabel : String :=
  "Image URL Signature (Note: Enabling signature is not compatible with previous image URLs, which could result in broken image links. Please refer to the implementation guide for details: https://docs.aws.amazon.com/solutions/latest/serverless-image-handler/considerations.html)"

/-- Label of the default-fallback-image parameter group. -/
def fallbackGroupLabel : String :=
  "Default Fallback Image (Note: Enabling default fallback image returns the default fallback image instead of JSON object when error happens. Please refer to the implementation guide for details: https://docs.aws.amazon.com/solutions/latest/serverless-image-handler/considerations.html)"

/-- Value of the `ApiEndpoint` output: a deploy-time branch between the HTTPS
and HTTP URL on the user-supplied domain when the child defines
`ApiCertificateCondition`, the HTTPS URL on the distribution domain
otherwise. -/
def apiEndpointValue (sih : ServerlessImageHandler) : ValueExpr :=
  match sih.tryFindChild "ApiCertificateCondition" with
  | some _ =>
      ValueExpr.conditionIf "ApiCertificateCondition"
        (ValueExpr.sub "https://$\x7bApiDomain\x7d")
        (ValueExpr.sub "http://$\x7bApiDomain\x7d")
  | none => ValueExpr.sub "https://$\x7bImageHandlerDistribution.DomainName\x7d"

/-- Value of the `DemoUrl` output: a deploy-time branch between the HTTPS and
HTTP URL on the user-supplied demo domain when the child defines
`DemoUICertificateCondition`, the HTTPS URL on the demo distribution domain
otherwise. -/
def demoUrlValue (sih : ServerlessImageHandler) : ValueExpr :=
  match sih.tryFindChild "DemoUICertificateCondition" with
  | some _ =>
      ValueExpr.conditionIf "DemoUICertificateCondition"
        (ValueExpr.sub "https://$\x7bDemoUIDomain\x7d/index.html")
        (ValueExpr.sub "http://$\x7bDemoUIDomain\x7d/index.html")
  | none => ValueExpr.sub "https://$\x7bDemoDistribution.DomainName\x7d/index.html"

/-- The `ConstructsStack` constructor: one synthesis pass, from the
`IS_CHINA_REGION` flag and the (spec-modelled) child construct to the final
stack state, or a synthesis error when a `findChild` lookup fails. -/
def constructsStack (IS_CHINA_REGION : Bool) (serverlessImageHander : ServerlessImageHandler) :
    Except String Stack :=
  let st : Stack := {}
  -- CFN parameters
  let (apiDomain, st) := cfnParamIf st IS_CHINA_REGION "ApiDomain" apiDomainProps
  let (apiCertificateIamId, st) :=
    cfnParamIf st IS_CHINA_REGION "ApiCertificateIamId" apiCertificateIamIdProps
  let (deployDemoUiParameter, st) := cfnParam st "DeployDemoUI" deployDemoUIProps
  let (demoUIDomain, st) := cfnParamIf st IS_CHINA_REGION "DemoUIDomain" demoUIDomainProps
  let (demoUICertificateIamId, st) :=
    cfnParamIf st IS_CHINA_REGION "DemoUICertificateIamId" demoUICertificateIamIdProps
  let (corsEnabledParameter, st) := cfnParam st "CorsEnabled" corsEnabledProps
  let (corsOriginParameter, st) := cfnParam st "CorsOrigin" corsOriginProps
  let (sourceBucketsParameter, st) := cfnParam st "SourceBuckets" sourceBucketsProps
  let (logRetentionPeriodParameter, st) :=
    cfnParam st "LogRetentionPeriod" logRetentionPeriodProps
  let (autoWebPParameter, st) := cfnParam st "AutoWebP" autoWebPProps
  let (enableSignatureParameter, st) := cfnParam st "EnableSignature" enableSignatureProps
  let (secretsManagerParameter, st) := cfnParam st "SecretsManagerSecret" secretsManagerProps
  let (secretsManagerKeyParameter, st) :=
    cfnParam st "SecretsManagerKey" secretsManagerKeyProps
  let (enableDefaultFallbackImageParameter, st) :=
    cfnParam st "EnableDefaultFallbackImage" enableDefaultFallbackImageProps
  let (fallbackImageS3BucketParameter, st) :=
    cfnParam st "FallbackImageS3Bucket" fallbackImageS3BucketProps
  let (fallbackImageS3KeyParameter, st) :=
    cfnParam st "FallbackImageS3Key" fallbackImageS3KeyProps
  -- Serverless Image Handler props
  let _sihProps : ServerlessImageHandlerProps :=
    { apiDomain, apiCertificateIamId, deployDemoUiParameter, demoUIDomain,
      demoUICertificateIamId, corsEnabledParameter, corsOriginParameter,
      sourceBucketsParameter, logRetentionPeriodParameter, autoWebPParameter,
      enableSignatureParameter, secretsManagerParameter, secretsManagerKeyParameter,
      enableDefaultFallbackImageParameter, fallbackImageS3BucketParameter,
      fallbackImageS3KeyParameter }
  -- CFN metadata: ParameterGroups (undefined entries filtered out)
  let st := { st with parameterGroups :=
    ([paramGroupIf IS_CHINA_REGION "API Configuration" [apiDomain, apiCertificateIamId],
      some (paramGroup "CORS Options" [some corsEnabledParameter, some corsOriginParameter]),
      some (paramGroup "Image Sources" [some sourceBucketsParameter]),
      some (paramGroup "Demo UI"
        [some deployDemoUiParameter, demoUIDomain, demoUICertificateIamId]),
      some (paramGroup "Event Logging" [some logRetentionPeriodParameter]),
      some (paramGroup signatureGroupLabel
        [some enableSignatureParameter, some secretsManagerParameter,
         some secretsManagerKeyParameter]),
      some (paramGroup fallbackGroupLabel
        [some enableDefaultFallbackImageParameter, some fallbackImageS3BucketParameter,
         some fallbackImageS3KeyParameter]),
      some (paramGroup "Auto WebP" [some autoWebPParameter])]).filterMap (fun g => g) }
  -- Outputs
  let (_, st) := cfnOutput st "ApiEndpoint"
    { value := apiEndpointValue serverlessImageHander }
  let (_, st) := cfnOutputIf st IS_CHINA_REGION "ApiEndpointCNAME"
    { value := ValueExpr.sub "$\x7bImageHandlerDistribution.DomainName\x7d" }
  match serverlessImageHander.findChild "DeployDemoUICondition" with
  | Except.error e => Except.error e
  | Except.ok deployDemoUICondition =>
    let (_, st) := cfnOutput st "DemoUrl"
      { value := demoUrlValue serverlessImageHander
        condition := some deployDemoUICondition }
    let (_, st) := cfnOutputIf st IS_CHINA_REGION "DemoUrlCNAME"
      { value := ValueExpr.sub "$\x7bDemoDistribution.DomainName\x7d" }
    let (sourceBucketsOutput, st) := cfnOutput st "SourceBucketsOutput"
      { value := sourceBucketsParameter.valueAsString }
    let st := overrideLogicalId st sourceBucketsOutput.logicalId "SourceBuckets"
    let (corsEnabledOutput, st) := cfnOutput st "CorsEnabledOutput"
      { value := corsEnabledParameter.valueAsString }
    let st := overrideLogicalId st corsEnabledOutput.logicalId "CorsEnabled"
    match serverlessImageHander.findChild "EnableCorsCondition" with
    | Except.error e => Except.error e
    | Except.ok enableCorsCondition =>
      let (corsOriginOutput, st) := cfnOutput st "CorsOriginOutput"
        { value := corsOriginParameter.valueAsString
          condition := some enableCorsCondition }
      let st := overrideLogicalId st corsOriginOutput.logicalId "CorsOrigin"
      let (logRetentionPeriodOutput, st) := cfnOutput st "LogRetentionPeriodOutput"
        { value := ValueExpr.ref "LogRetentionPeriod" }
      let st := overrideLogicalId st logRetentionPeriodOutput.logicalId "LogRetentionPeriod"
      Except.ok st

/-- The condition names referenced inside a value expression (the first
argument of every `Fn.conditionIf` node). -/
def ValueExpr.condRefs : ValueExpr → List String
  | ValueExpr.sub _ => []
  | ValueExpr.ref _ => []
  | ValueExpr.conditionIf c t e => c :: (condRefs t ++ condRefs e)

/-- All condition names an output references: its guarding condition when
present, plus the conditions inside its value expression. -/
def CfnOutput.condRefs (o : CfnOutput) : List String :=
  (match o.props.condition with
   | some c => [c]
   | none => []) ++ o.props.value.condRefs

/-- Modelled from the spec: the deploy-time truth value of the child-owned
conditions as a function of the supplied parameter values
(`serverless-image-handler.ts` is not part of this snapshot).  Per the spec,
the child derives its conditions from parameter values: the demo UI condition
holds when `DeployDemoUI` is `Yes`, the CORS condition when `CorsEnabled` is
`Yes`, and each certificate condition when the corresponding IAM certificate
id parameter is non-empty. -/
def childConditionValue (pv : String → String) (name : String) : Bool :=
  if name = "DeployDemoUICondition" then pv "DeployDemoUI" == "Yes"
  else if name = "EnableCorsCondition" then pv "CorsEnabled" == "Yes"
  else if name = "ApiCertificateCondition" then !(pv "ApiCertificateIamId" == "")
  else if name = "DemoUICertificateCondition" then !(pv "DemoUICertificateIamId" == "")
  else false

/-- A deploy-time resolved output value: either a resolved literal (a `Ref`
to a parameter replaced by the supplied value) or a still-symbolic `Fn::Sub`
template over resource attributes. -/
inductive RenderedValue where
  | lit : String → RenderedValue
  | sub : String → RenderedValue
deriving DecidableEq, Repr

/-- Modelled from the spec (templating-engine semantics): resolve an output
value at deploy time under a condition valuation and parameter values —
`Fn::If` picks a branch, a parameter `Ref` resolves to the supplied value,
and `Fn::Sub` templates over resource attributes stay symbolic. -/
def renderValue (cond : String → Bool) (pv : String → String) : ValueExpr → RenderedValue
  | ValueExpr.sub s => RenderedValue.sub s
  | ValueExpr.ref n => RenderedValue.lit (pv n)
  | ValueExpr.conditionIf c t e =>
      if cond c then renderValue cond pv t else renderValue cond pv e

/-- An output as it appears in the rendered deploy-time result. -/
structure RenderedOutput where
  logicalId : String
  value : RenderedValue
deriving DecidableEq, Repr

/-- Modelled from the spec (templating-engine semantics): the rendered
deploy-time result of a synthesized stack — an output guarded by a condition
is materialized only when the condition holds, and values are resolved. -/
def renderStack (cond : String → Bool) (pv : String → String) (st : Stack) :
    List RenderedOutput :=
  (st.outputs.filter fun o =>
      match o.props.condition with
      | some c => cond c
      | none => true).map fun o =>
    { logicalId := o.logicalId, value := renderValue cond pv o.props.value }

/-- The stack state a successful pass produces, as a total function of the
flag and the child; proved below to characterize `constructsStack`. -/
def passStack (flag : Bool) (sih : ServerlessImageHandler) : Stack :=
  { parameters :=
      (if flag then
        [{ logicalId := "ApiDomain", props := apiDomainProps },
         { logicalId := "ApiCertificateIamId", props := apiCertificateIamIdProps }]
       else []) ++
      [{ logicalId := "DeployDemoUI", props := deployDemoUIProps }] ++
      (if flag then
        [{ logicalId := "DemoUIDomain", props := demoUIDomainProps },
         { logicalId := "DemoUICertificateIamId", props := demoUICertificateIamIdProps }]
       else []) ++
      [{ logicalId := "CorsEnabled", props := corsEnabledProps },
       { logicalId := "CorsOrigin", props := corsOriginProps },
       { logicalId := "SourceBuckets", props := sourceBucketsProps },
       { logicalId := "LogRetentionPeriod", props := logRetentionPeriodProps },
       { logicalId := "AutoWebP", props := autoWebPProps },
       { logicalId := "EnableSignature", props := enableSignatureProps },
       { logicalId := "SecretsManagerSecret", props := secretsManagerProps },
       { logicalId := "SecretsManagerKey", props := secretsManagerKeyProps },
       { logicalId := "EnableDefaultFallbackImage", props := enableDefaultFallbackImageProps },
       { logicalId := "FallbackImageS3Bucket", props := fallbackImageS3BucketProps },
       { logicalId := "FallbackImageS3Key", props := fallbackImageS3KeyProps }]
    parameterGroups :=
      (if flag then
        [{ Label := "API Configuration", Parameters := ["ApiDomain", "ApiCertificateIamId"] }]
       else []) ++
      [{ Label := "CORS Options", Parameters := ["CorsEnabled", "CorsOrigin"] },
       { Label := "Image Sources", Parameters := ["SourceBuckets"] },
       { Label := "Demo UI", Parameters :=
          if flag then ["DeployDemoUI", "DemoUIDomain", "DemoUICertificateIamId"]
          else ["DeployDemoUI"] },
       { Label := "Event Logging", Parameters := ["LogRetentionPeriod"] },
       { Label := signatureGroupLabel, Parameters :=
          ["EnableSignature", "SecretsManagerSecret", "SecretsManagerKey"] },
       { Label := fallbackGroupLabel, Parameters :=
          ["EnableDefaultFallbackImage", "FallbackImageS3Bucket", "FallbackImageS3Key"] },
       { Label := "Auto WebP", Parameters := ["AutoWebP"] }]
    outputs :=
      [{ logicalId := "ApiEndpoint", props := { value := apiEndpointValue sih } }] ++
      (if flag then
        [{ logicalId := "ApiEndpointCNAME",
           props := { value := ValueExpr.sub "$\x7bImageHandlerDistribution.DomainName\x7d" } }]
       else []) ++
      [{ logicalId := "DemoUrl",
         props := { value := demoUrlValue sih, condition := some "DeployDemoUICondition" } }] ++
      (if flag then
        [{ logicalId := "DemoUrlCNAME",
           props := { value := ValueExpr.sub "$\x7bDemoDistribution.DomainName\x7d" } }]
       else []) ++
      [{ logicalId := "SourceBuckets", props := { value := ValueExpr.ref "SourceBuckets" } },
       { logicalId := "CorsEnabled", props := { value := ValueExpr.ref "CorsEnabled" } },
       { logicalId := "CorsOrigin",
         props := { value := ValueExpr.ref "CorsOrigin", condition := some "EnableCorsCondition" } },
       { logicalId := "LogRetentionPeriod",
         props := { value := ValueExpr.ref "LogRetentionPeriod" } }] }

/-- A child construct defining exactly the two always-required conditions. -/
def sihDemo : ServerlessImageHandler :=
  ⟨["DeployDemoUICondition", "EnableCorsCondition"]⟩

/-- A child construct that additionally defines both certificate
conditions. -/
def sihCert : ServerlessImageHandler :=
  ⟨["ApiCertificateCondition", "DemoUICertificateCondition",
    "DeployDemoUICondition", "EnableCorsCondition"]⟩

/-- The concrete stack of a successful global-region pass with `sihDemo`. -/
def stGlobal : Stack := ((constructsStack false sihDemo).toOption).getD {}

/-- The concrete stack of a successful China-region pass with `sihDemo`. -/
def stCN : Stack := ((constructsStack true sihDemo).toOption).getD {}

/-- The concrete stack of a successful global-region pass with `sihCert`. -/
def stCertGlobal : Stack := ((constructsStack false sihCert).toOption).getD {}

/-- Concrete deploy-time parameter values used to instantiate hypotheses:
demo UI declined, CORS enabled with an explicit origin. -/
def pvDemo : String → String := fun n =>
  if n = "DeployDemoUI" then "No"
  else if n = "CorsEnabled" then "Yes"
  else if n = "CorsOrigin" then "https://example.com"
  else ""

/-- Concrete deploy-time parameter values with the demo UI accepted and CORS
declined. -/
def pvDemo2 : String → String := fun n =>
  if n = "DeployDemoUI" then "Yes"
  else if n = "CorsEnabled" then "No"
  else ""

/-- Characterization of a synthesis pass: it succeeds exactly when the child
defines `DeployDemoUICondition` and `EnableCorsCondition`, and then produces
`passStack`. -/
theorem constructsStack_ok_iff (flag : Bool) (sih : ServerlessImageHandler) (st : Stack) :
    constructsStack flag sih = Except.ok st ↔
      "DeployDemoUICondition" ∈ sih.conditions ∧
      "EnableCorsCondition" ∈ sih.conditions ∧
      st = passStack flag sih := by
  cases flag <;>
  by_cases h₁ : "DeployDemoUICondition" ∈ sih.conditions <;>
  by_cases h₂ : "EnableCorsCondition" ∈ sih.conditions <;>
  simp [constructsStack, passStack, cfnParam, cfnParamIf, cfnOutput, cfnOutputIf,
    overrideLogicalId, paramGroup, paramGroupIf, ServerlessImageHandler.findChild,
    ServerlessImageHandler.tryFindChild, h₁, h₂, CfnParameter.valueAsString, eq_comm]

/-- Claim C1: with the region-mode flag false, none of the four region-only
parameters is registered in the parameter registry and neither CNAME output
is declared; with the flag true, all four are registered and both CNAME
outputs are declared. -/
theorem C1_region_mode_gating (flag : Bool) (sih : ServerlessImageHandler) (st : Stack)
    (h : constructsStack flag sih = Except.ok st) :
    (("ApiDomain" ∈ st.parameters.map CfnParameter.logicalId) ↔ flag = true) ∧
    (("ApiCertificateIamId" ∈ st.parameters.map CfnParameter.logicalId) ↔ flag = true) ∧
    (("DemoUIDomain" ∈ st.parameters.map CfnParameter.logicalId) ↔ flag = true) ∧
    (("DemoUICertificateIamId" ∈ st.parameters.map CfnParameter.logicalId) ↔ flag = true) ∧
    (("ApiEndpointCNAME" ∈ st.outputs.map CfnOutput.logicalId) ↔ flag = true) ∧
    (("DemoUrlCNAME" ∈ st.outputs.map CfnOutput.logicalId) ↔ flag = true) := by
  rcases (constructsStack_ok_iff flag sih st).mp h with ⟨-, -, rfl⟩
  cases flag <;> simp [passStack]

/-- Witness for C1: a concrete China-region pass registers `ApiDomain` and
declares the `ApiEndpointCNAME` output. -/
theorem C1_region_mode_gating_witness :
    "ApiDomain" ∈ stCN.parameters.map CfnParameter.logicalId ∧
    "ApiEndpointCNAME" ∈ stCN.outputs.map CfnOutput.logicalId := by
  have h := C1_region_mode_gating true sihDemo stCN (by rfl)
  exact ⟨h.1.mpr rfl, h.2.2.2.2.1.mpr rfl⟩

/-- Claim C2: the `ApiEndpoint` output's value is the deploy-time branch over
the user-supplied domain exactly when the child defines
`ApiCertificateCondition`, and otherwise the HTTPS distribution URL; the same
selection, keyed on `DemoUICertificateCondition`, fixes the `DemoUrl`
value. -/
theorem C2_output_value_selection (flag : Bool) (sih : ServerlessImageHandler) (st : Stack)
    (h : constructsStack flag sih = Except.ok st) :
    (st.outputs.filter fun o => o.logicalId == "ApiEndpoint").map (fun o => o.props.value) =
      [if (sih.tryFindChild "ApiCertificateCondition").isSome then
        ValueExpr.conditionIf "ApiCertificateCondition"
          (ValueExpr.sub "https://$\x7bApiDomain\x7d")
          (ValueExpr.sub "http://$\x7bApiDomain\x7d")
       else ValueExpr.sub "https://$\x7bImageHandlerDistribution.DomainName\x7d"] ∧
    (st.outputs.filter fun o => o.logicalId == "DemoUrl").map (fun o => o.props.value) =
      [if (sih.tryFindChild "DemoUICertificateCondition").isSome then
        ValueExpr.conditionIf "DemoUICertificateCondition"
          (ValueExpr.sub "https://$\x7bDemoUIDomain\x7d/index.html")
          (ValueExpr.sub "http://$\x7bDemoUIDomain\x7d/index.html")
       else ValueExpr.sub "https://$\x7bDemoDistribution.DomainName\x7d/index.html"] := by
  rcases (constructsStack_ok_iff flag sih st).mp h with ⟨-, -, rfl⟩
  cases flag <;>
  by_cases hA : "ApiCertificateCondition" ∈ sih.conditions <;>
  by_cases hD : "DemoUICertificateCondition" ∈ sih.conditions <;>
  simp [passStack, apiEndpointValue, demoUrlValue, ServerlessImageHandler.tryFindChild, hA, hD]

/-- Witness for C2: in a global pass with both certificate conditions
defined, `ApiEndpoint` carries the deploy-time conditional value. -/
theorem C2_output_value_selection_witness :
    (stCertGlobal.outputs.filter fun o => o.logicalId == "ApiEndpoint").map
        (fun o => o.props.value) =
      [ValueExpr.conditionIf "ApiCertificateCondition"
        (ValueExpr.sub "https://$\x7bApiDomain\x7d")
        (ValueExpr.sub "http://$\x7bApiDomain\x7d")] := by
  have h := C2_output_value_selection false sihCert stCertGlobal (by rfl)
  simpa using h.1

/-- Claim C3: a successful pass only ever references condition names the
child defines (both as output guards and inside `Fn::If` values), and a
reference to an undefined required condition makes the pass fail at
synthesis time. -/
theorem C3_condition_references_validated (flag : Bool) (sih : ServerlessImageHandler) :
    (∀ st, constructsStack flag sih = Except.ok st →
      ∀ o ∈ st.outputs, ∀ c ∈ o.condRefs, c ∈ sih.conditions) ∧
    (("DeployDemoUICondition" ∉ sih.conditions ∨ "EnableCorsCondition" ∉ sih.conditions) →
      ∃ e, constructsStack flag sih = Except.error e) := by
  constructor
  · intro st h o ho c hc
    rcases (constructsStack_ok_iff flag sih st).mp h with ⟨h₁, h₂, rfl⟩
    by_cases hA : "ApiCertificateCondition" ∈ sih.conditions <;>
    by_cases hD : "DemoUICertificateCondition" ∈ sih.conditions <;>
    cases flag <;>
    simp [passStack, apiEndpointValue, demoUrlValue, ServerlessImageHandler.tryFindChild,
      hA, hD] at ho <;>
    rcases ho with rfl | rfl | rfl | rfl | rfl | rfl | rfl | rfl <;>
    simp [CfnOutput.condRefs, ValueExpr.condRefs] at hc <;>
    first
      | (subst hc; assumption)
      | (rcases hc with rfl | rfl <;> assumption)
  · intro hbad
    cases hres : constructsStack flag sih with
    | error e => exact ⟨e, rfl⟩
    | ok st =>
        rcases (constructsStack_ok_iff flag sih st).mp hres with ⟨h₁, h₂, -⟩
        cases hbad with
        | inl hx => exact absurd h₁ hx
        | inr hx => exact absurd h₂ hx

/-- Witness for C3: a child defining no conditions makes the pass fail, and
in a successful concrete pass the `CorsOrigin` guard is a defined
condition. -/
theorem C3_condition_references_validated_witness :
    (∃ e, constructsStack false ⟨[]⟩ = Except.error e) ∧
    "EnableCorsCondition" ∈ sihDemo.conditions := by
  refine ⟨(C3_condition_references_validated false ⟨[]⟩).2 (Or.inl (by decide)), ?_⟩
  exact (C3_condition_references_validated false sihDemo).1 stGlobal (by rfl)
    { logicalId := "CorsOrigin",
      props := { value := ValueExpr.ref "CorsOrigin", condition := some "EnableCorsCondition" } }
    (by decide) "EnableCorsCondition" (by decide)


/-- Claim C4: in the rendered deploy-time result of any valid pass,
`DeployDemoUI = No` suppresses the `DemoUrl` output and `Yes` keeps it, and
`CorsEnabled = No` suppresses the `CorsOrigin` output while `Yes` keeps it
with exactly the supplied `CorsOrigin` literal as its value. -/
theorem C4_rendered_result (flag : Bool) (sih : ServerlessImageHandler) (st : Stack)
    (pv : String → String) (h : constructsStack flag sih = Except.ok st) :
    (pv "DeployDemoUI" = "No" →
      "DemoUrl" ∉ (renderStack (childConditionValue pv) pv st).map RenderedOutput.logicalId) ∧
    (pv "DeployDemoUI" = "Yes" →
      "DemoUrl" ∈ (renderStack (childConditionValue pv) pv st).map RenderedOutput.logicalId) ∧
    (pv "CorsEnabled" = "No" →
      "CorsOrigin" ∉ (renderStack (childConditionValue pv) pv st).map RenderedOutput.logicalId) ∧
    (pv "CorsEnabled" = "Yes" →
      ((renderStack (childConditionValue pv) pv st).filter
          (fun r => r.logicalId == "CorsOrigin")).map RenderedOutput.value =
        [RenderedValue.lit (pv "CorsOrigin")]) := by
  rcases (constructsStack_ok_iff flag sih st).mp h with ⟨-, -, rfl⟩
  refine ⟨fun hp => ?_, fun hp => ?_, fun hp => ?_, fun hp => ?_⟩ <;>
  cases flag <;>
  by_cases hDD : pv "DeployDemoUI" = "Yes" <;>
  by_cases hCE : pv "CorsEnabled" = "Yes" <;>
  simp_all [renderStack, passStack, childConditionValue, renderValue]

/-- Witness for C4: with `sihDemo`, region mode off, demo UI declined and
CORS enabled with origin `https://example.com`, the rendered result omits
`DemoUrl` and carries that literal as the `CorsOrigin` value. -/
theorem C4_rendered_result_witness :
    "DemoUrl" ∉ (renderStack (childConditionValue pvDemo) pvDemo stGlobal).map
        RenderedOutput.logicalId ∧
    ((renderStack (childConditionValue pvDemo) pvDemo stGlobal).filter
        (fun r => r.logicalId == "CorsOrigin")).map RenderedOutput.value =
      [RenderedValue.lit "https://example.com"] := by
  have h := C4_rendered_result false sihDemo stGlobal pvDemo (by rfl)
  exact ⟨h.1 rfl, by simpa using h.2.2.2 rfl⟩

/-- Counterexample to C5 as stated: a present handle whose logical id is the
empty string is dropped from the member list, so the member list is not
always exactly the identifiers of the present handles. -/
theorem C5_counterexample :
    (paramGroup "Demo UI" [some { logicalId := "", props := {} }]).Parameters = [] ∧
    ([some ({ logicalId := "", props := {} } : CfnParameter)].reduceOption).map
        CfnParameter.logicalId = [""] := by
  constructor <;> rfl

/-- Claim C5 (amended): when every present handle has a non-empty identifier
— true of every parameter this stack declares — `paramGroup` returns the
labeled group whose members are exactly the identifiers of the present
handles in order (an empty member list when all are absent), and
`paramGroupIf` returns that group exactly when its flag is true. -/
theorem C5_param_group_filtering (label : String) (params : List (Option CfnParameter))
    (hne : ∀ q : CfnParameter, some q ∈ params → q.logicalId ≠ "") :
    (paramGroup label params).Label = label ∧
    (paramGroup label params).Parameters = params.reduceOption.map CfnParameter.logicalId ∧
    (paramGroup label []).Parameters = [] ∧
    (∀ flag, paramGroupIf flag label params =
      if flag then some (paramGroup label params) else none) := by
  refine ⟨rfl, ?_, rfl, fun flag => rfl⟩
  induction params with
  | nil => rfl
  | cons p t ih =>
      have ht : ∀ q : CfnParameter, some q ∈ t → q.logicalId ≠ "" :=
        fun q hq => hne q (List.mem_cons_of_mem _ hq)
      cases p with
      | none =>
          have hstep : (paramGroup label (none :: t)).Parameters =
              (paramGroup label t).Parameters := by
            simp [paramGroup]
          rw [hstep, ih ht]
          simp [List.reduceOption]
      | some q =>
          have hq : q.logicalId ≠ "" := hne q (List.mem_cons_self _ _)
          have hstep : (paramGroup label (some q :: t)).Parameters =
              q.logicalId :: (paramGroup label t).Parameters := by
            simp [paramGroup, List.filter_cons, hq]
          rw [hstep, ih ht]
          simp [List.reduceOption]

/-- Witness for C5 (amended): the Demo UI group in global mode keeps only the
present `DeployDemoUI` handle. -/
theorem C5_param_group_filtering_witness :
    (paramGroup "Demo UI"
      [some { logicalId := "DeployDemoUI", props := deployDemoUIProps }, none, none]).Parameters =
      ["DeployDemoUI"] := by
  have h := C5_param_group_filtering "Demo UI"
    [some { logicalId := "DeployDemoUI", props := deployDemoUIProps }, none, none]
    (by intro q hq; simp at hq; rw [hq]; decide)
  simpa using h.2.1

/-- Counterexample to C6 as stated: the `SourceBuckets` parameter is declared
with a placeholder default value, so a pass is not forced to supply one. -/
theorem C6_counterexample :
    (stGlobal.parameters.filter fun p => p.logicalId == "SourceBuckets").map
        (fun p => p.props.default) =
      [some "defaultBucket, bucketNo2, bucketNo3, ..."] := by
  rfl

/-- Claim C6 (amended): `SourceBuckets` is declared as a String with
validation pattern `.+` and the placeholder default
`defaultBucket, bucketNo2, bucketNo3, ...`; the pattern only forbids an
empty value, and the default means synthesis does not require an explicit
value. -/
theorem C6_sourceBuckets_declaration (flag : Bool) (sih : ServerlessImageHandler) (st : Stack)
    (h : constructsStack flag sih = Except.ok st) :
    st.parameters.filter (fun p => p.logicalId == "SourceBuckets") =
      [{ logicalId := "SourceBuckets",
         props := { type := some "String",
                    default := some "defaultBucket, bucketNo2, bucketNo3, ...",
                    allowedPattern := some ".+" } }] := by
  rcases (constructsStack_ok_iff flag sih st).mp h with ⟨-, -, rfl⟩
  cases flag <;> rfl

/-- Witness for C6 (amended) at a concrete China-region pass. -/
theorem C6_sourceBuckets_declaration_witness :
    stCN.parameters.filter (fun p => p.logicalId == "SourceBuckets") =
      [{ logicalId := "SourceBuckets",
         props := { type := some "String",
                    default := some "defaultBucket, bucketNo2, bucketNo3, ...",
                    allowedPattern := some ".+" } }] :=
  C6_sourceBuckets_declaration true sihDemo stCN (by rfl)

/-- Claim C7: the unconditionally declared parameters carry exactly the
types, defaults and constraints the spec's table gives them. -/
theorem C7_unconditional_parameter_specs (flag : Bool) (sih : ServerlessImageHandler)
    (st : Stack) (h : constructsStack flag sih = Except.ok st) :
    st.parameters.filter (fun p => p.logicalId == "DeployDemoUI") =
      [{ logicalId := "DeployDemoUI",
         props := { type := some "String", default := some "Yes",
                    allowedValues := some ["Yes", "No"] } }] ∧
    st.parameters.filter (fun p => p.logicalId == "CorsEnabled") =
      [{ logicalId := "CorsEnabled",
         props := { type := some "String", default := some "No",
                    allowedValues := some ["Yes", "No"] } }] ∧
    st.parameters.filter (fun p => p.logicalId == "AutoWebP") =
      [{ logicalId := "AutoWebP",
         props := { type := some "String", default := some "No",
                    allowedValues := some ["Yes", "No"] } }] ∧
    st.parameters.filter (fun p => p.logicalId == "EnableSignature") =
      [{ logicalId := "EnableSignature",
         props := { type := some "String", default := some "No",
                    allowedValues := some ["Yes", "No"] } }] ∧
    st.parameters.filter (fun p => p.logicalId == "EnableDefaultFallbackImage") =
      [{ logicalId := "EnableDefaultFallbackImage",
         props := { type := some "String", default := some "No",
                    allowedValues := some ["Yes", "No"] } }] ∧
    st.parameters.filter (fun p => p.logicalId == "CorsOrigin") =
      [{ logicalId := "CorsOrigin",
         props := { type := some "String", default := some "*" } }] ∧
    st.parameters.filter (fun p => p.logicalId == "LogRetentionPeriod") =
      [{ logicalId := "LogRetentionPeriod",
         props := { type := some "Number", default := some "1",
                    allowedValues := some ["1", "3", "5", "7", "14", "30", "60", "90",
                      "120", "150", "180", "365", "400", "545", "731", "1827", "3653"] } }] := by
  rcases (constructsStack_ok_iff flag sih st).mp h with ⟨-, -, rfl⟩
  cases flag <;> exact ⟨rfl, rfl, rfl, rfl, rfl, rfl, rfl⟩

/-- Witness for C7 at a concrete global-region pass: the `LogRetentionPeriod`
declaration. -/
theorem C7_unconditional_parameter_specs_witness :
    stGlobal.parameters.filter (fun p => p.logicalId == "LogRetentionPeriod") =
      [{ logicalId := "LogRetentionPeriod",
         props := { type := some "Number", default := some "1",
                    allowedValues := some ["1", "3", "5", "7", "14", "30", "60", "90",
                      "120", "150", "180", "365", "400", "545", "731", "1827", "3653"] } }] :=
  (C7_unconditional_parameter_specs false sihDemo stGlobal (by rfl)).2.2.2.2.2.2

/-- Claim C8: the assembly is deterministic — two passes with the same flag
and the same child produce structurally identical parameter registries,
parameter groups and outputs. -/
theorem C8_determinism (flag : Bool) (sih : ServerlessImageHandler) (st₁ st₂ : Stack)
    (h₁ : constructsStack flag sih = Except.ok st₁)
    (h₂ : constructsStack flag sih = Except.ok st₂) :
    st₁.parameterGroups = st₂.parameterGroups ∧ st₁.outputs = st₂.outputs ∧
    st₁.parameters = st₂.parameters := by
  have h := h₁.symm.trans h₂
  rw [Except.ok.injEq] at h
  exact ⟨by rw [h], by rw [h], by rw [h]⟩

/-- Witness for C8 at a concrete pass run twice. -/
theorem C8_determinism_witness :
    stCN.parameterGroups = stCN.parameterGroups ∧ stCN.outputs = stCN.outputs ∧
    stCN.parameters = stCN.parameters :=
  C8_determinism true sihDemo stCN stCN (by rfl) (by rfl)

/-- Claim C9: `cfnOutputIf` returns absent in every case — even when its flag
is true and the output is created and registered — unlike `cfnParamIf`,
which returns the created parameter handle when its flag is true. -/
theorem C9_cfnOutputIf_returns_absent (st : Stack) (flag : Bool) (id : String)
    (oprops : CfnOutputProps) (pprops : CfnParameterProps) :
    (cfnOutputIf st flag id oprops).1 = none ∧
    (cfnOutputIf st true id oprops).2.outputs =
      st.outputs ++ [{ logicalId := id, props := oprops }] ∧
    (cfnParamIf st true id pprops).1 = some { logicalId := id, props := pprops } := by
  refine ⟨?_, ?_, ?_⟩ <;> cases flag <;>
    simp [cfnOutputIf, cfnOutput, cfnParamIf, cfnParam]

/-- Claim C10: the `ParameterGroups` metadata has a fixed shape determined
only by the region flag — 8 groups headed by API Configuration when the flag
is true, 7 groups headed by CORS Options when it is false, with the Demo UI
group reduced to its single present member in the latter case. -/
theorem C10_parameter_groups_shape (flag : Bool) (sih : ServerlessImageHandler) (st : Stack)
    (h : constructsStack flag sih = Except.ok st) :
    st.parameterGroups.map ParamGroup.Parameters =
      (if flag then [["ApiDomain", "ApiCertificateIamId"]] else []) ++
      [["CorsEnabled", "CorsOrigin"], ["SourceBuckets"],
       (if flag then ["DeployDemoUI", "DemoUIDomain", "DemoUICertificateIamId"]
        else ["DeployDemoUI"]),
       ["LogRetentionPeriod"],
       ["EnableSignature", "SecretsManagerSecret", "SecretsManagerKey"],
       ["EnableDefaultFallbackImage", "FallbackImageS3Bucket", "FallbackImageS3Key"],
       ["AutoWebP"]] ∧
    st.parameterGroups.length = (if flag then 8 else 7) ∧
    (st.parameterGroups.map ParamGroup.Label).head? =
      some (if flag then "API Configuration" else "CORS Options") ∧
    (st.parameterGroups.filter fun g => g.Label == "Demo UI").map ParamGroup.Parameters =
      [if flag then ["DeployDemoUI", "DemoUIDomain", "DemoUICertificateIamId"]
       else ["DeployDemoUI"]] := by
  rcases (constructsStack_ok_iff flag sih st).mp h with ⟨-, -, rfl⟩
  cases flag <;> exact ⟨rfl, rfl, rfl, rfl⟩

/-- Witness for C10 at a concrete global-region pass. -/
theorem C10_parameter_groups_shape_witness :
    stGlobal.parameterGroups.length = 7 ∧
    (stGlobal.parameterGroups.filter fun g => g.Label == "Demo UI").map
        ParamGroup.Parameters = [["DeployDemoUI"]] := by
  have h := C10_parameter_groups_shape false sihDemo stGlobal (by rfl)
  exact ⟨by simpa using h.2.1, by simpa using h.2.2.2⟩

end SIHStack
